import Mathlib

/-!
Verification of the ptgbot command interpreter (`src/ptgbot/bot.py`,
`PTGBot.on_pubmsg`) against its natural-language specification.

The interpreter is embedded shallowly: `on_pubmsg` becomes a pure Lean
function from the bot state and an inbound event to the new state and the
list of outbound `(channel, text)` messages, with the channel privilege
flags (`is_voiced` / `is_oper`) supplied as explicit boolean inputs.
The Python string operations the handler uses (`[1:]`, `startswith`,
`split()`, `lower()`, `' '.join`, `split('!')[0]`) are given faithful
structurally-recursive Lean counterparts over the character list, so
that concrete runs reduce in the kernel.  The session-state store
(`ptgbot.db.PTGDataBase`) is not part of the source tree; it is
modelled from the spec's State Store contract.
-/

namespace Ptgbot

/-- Python `s[1:]`: drop the first character (empty stays empty). -/
def pyDrop1 (s : String) : String := ⟨s.data.drop 1⟩

/-- Python `s.startswith(pre)`: the first `pre.length` characters of `s`
equal `pre`. -/
def pyStartsWith (s pre : String) : Bool :=
  decide (s.data.take pre.data.length = pre.data)

/-- Python `s.lower()`, on the ASCII range (all inputs the claims use
are ASCII; `Char.toLower` maps `A`–`Z` to `a`–`z` and fixes the rest). -/
def pyLower (s : String) : String := ⟨s.data.map Char.toLower⟩

/-- Python `source.split('!')[0]`: the prefix of the source up to (not
including) the first `!`, the whole string when there is none.  This is
how `on_pubmsg` extracts the sender nick from the IRC prefix
`nick!user@host`. -/
def nickOf (source : String) : String :=
  ⟨source.data.takeWhile (fun c => !decide (c = '!'))⟩

/-- Python's whitespace set for `str.split()` without arguments
(space, tab, newline, carriage return, vertical tab, form feed). -/
def pyIsSpace (c : Char) : Bool :=
  c = ' ' || c = '\t' || c = '\n' || c = '\r' || c = '\x0b' || c = '\x0c'

/-- Worker for `pySplit`: walks the character list, accumulating the
current (reversed) token, emitting it when whitespace is hit. -/
def splitAux : List Char → List Char → List String
  | [], [] => []
  | [], acc => [String.mk acc.reverse]
  | c :: cs, acc =>
    if pyIsSpace c then
      match acc with
      | [] => splitAux cs []
      | _ => String.mk acc.reverse :: splitAux cs []
    else splitAux cs (c :: acc)

/-- Python `s.split()` with no arguments: split on runs of whitespace,
discarding leading and trailing whitespace (no empty tokens). -/
def pySplit (s : String) : List String := splitAux s.data []

/-- Python `words[n]`, total with default `""`; `on_pubmsg` only indexes
under a guard that makes the index in range. -/
def pyIdx (l : List String) (n : Nat) : String := l.getD n ""

/-- Python `str.join(' ', l)`: the elements of `l` concatenated with a
single space between consecutive elements. -/
def joinSpace : List String → String
  | [] => ""
  | [x] => x
  | x :: y :: xs => x ++ " " ++ joinSpace (y :: xs)

/-- The two time positions per room (spec section 3, `SlotKey.slot`). -/
inductive Slot
  | NOW
  | NEXT
deriving DecidableEq, Repr

/-- Modelled from the spec: `ptgbot.db.PTGDataBase` is imported by
`bot.py` but its source is not in the tree.  Per the spec's State Store
contract (section 4.1) it is a mapping from `(room, slot)` to a session
name, with `set` unconditionally overwriting the record for that key and
`wipe` removing all records.  Represented as an association list with at
most one entry per key. -/
structure DB where
  board : List ((String × Slot) × String)
deriving Repr

/-- Modelled from the spec: `set(slot_key, session_name)` unconditionally
overwrites any existing record for that key. -/
def DB.set (db : DB) (room : String) (slot : Slot) (session : String) : DB :=
  ⟨((room, slot), session) :: db.board.filter (fun e => !decide (e.1 = (room, slot)))⟩

/-- Modelled from the spec: `add_now(room, session)` sets the NOW slot of
`room` to `session`. -/
def DB.add_now (db : DB) (room session : String) : DB :=
  db.set room Slot.NOW session

/-- Modelled from the spec: `add_next(room, session)` sets the NEXT slot
of `room` to `session`. -/
def DB.add_next (db : DB) (room session : String) : DB :=
  db.set room Slot.NEXT session

/-- Modelled from the spec: `wipe()` removes all records. -/
def DB.wipe (_ : DB) : DB := ⟨[]⟩

/-- Modelled from the spec: `get(slot_key)` returns the record for that
key, or none when the key is unset. -/
def DB.get (db : DB) (room : String) (slot : Slot) : Option String :=
  (db.board.find? (fun e => decide (e.1 = (room, slot)))).map (·.2)

/-- The part of the `PTGBot` object state that `on_pubmsg` reads and
writes: the `identify_msg_cap` flag (set by `on_welcome` / `on_cap`)
and the session store `self.data`. -/
structure BotState where
  identify_msg_cap : Bool
  data : DB
deriving Repr

/-- One inbound public-channel message event: `e.source` (the IRC
prefix, `nick!user@host`), `e.target` (the channel) and
`e.arguments[0]` (the raw text, prefixed by the identify-msg marker
`+` or `-`). -/
structure PubMsgEvent where
  source : String
  target : String
  arg : String
deriving Repr

/-- The usage reminder sent by `PTGBot.usage`. -/
def usageLine : String := "Format is '@ROOM [now|next] SESSION'"

/-- Shallow embedding of `PTGBot.on_pubmsg` (bot.py lines 93-138).
`is_voiced chan nick` and `is_oper chan nick` stand for
`self.channels[chan].is_voiced(nick)` / `.is_oper(nick)`.  Returns the
new bot state and the list of `(channel, text)` messages sent, in
order.  Mirrors the source line by line: the identify-msg capability
gate, the `auth` flag (`e.arguments[0][0] == '+'`, computed in the
source but never consulted, so it does not appear in the result), the
`#` set-command branch and the `!` admin branch. -/
def on_pubmsg (is_voiced is_oper : String → String → Bool)
    (st : BotState) (e : PubMsgEvent) : BotState × List (String × String) :=
  if !st.identify_msg_cap then
    (st, [])
  else
    let nick := nickOf e.source
    let msg := pyDrop1 e.arg
    let chan := e.target
    if pyStartsWith msg "#" then
      if !(is_voiced chan nick || is_oper chan nick) then
        (st, [(chan, nick ++ ": Need voice to issue commands")])
      else
        let words := pySplit msg
        if words.length < 3 then
          (st, [(chan, nick ++ ": Incorrect number of arguments"),
                (chan, usageLine)])
        else
          let room := pyLower (pyDrop1 (pyIdx words 0))
          let adverb := pyLower (pyIdx words 1)
          let session := joinSpace (words.drop 2)
          if adverb = "now" then
            ({st with data := st.data.add_now room session},
             [(chan, nick ++ ": ack")])
          else if adverb = "next" then
            ({st with data := st.data.add_next room session},
             [(chan, nick ++ ": ack")])
          else
            (st, [(chan, nick ++ ": unknown directive '" ++ adverb ++ "'"),
                  (chan, usageLine)])
    else if pyStartsWith msg "!" then
      if !is_oper chan nick then
        (st, [(chan, nick ++ ": Need op for admin commands")])
      else
        let words := pySplit msg
        let command := pyLower (pyDrop1 (pyIdx words 0))
        if command = "wipe" then
          ({st with data := st.data.wipe},
           [(chan, nick ++ ": done")])
        else
          (st, [(chan, nick ++ ": unknown command '" ++ command ++ "'")])
    else
      (st, [])

/-- Setting a key and reading it back returns the just-set session. -/
theorem DB.get_set_same (db : DB) (room : String) (slot : Slot) (session : String) :
    (db.set room slot session).get room slot = some session := by
  simp [DB.get, DB.set, List.find?]

/-- A message starting with `!` does not start with `#`. -/
theorem bang_not_hash (s : String) (h : pyStartsWith s "!" = true) :
    pyStartsWith s "#" = false := by
  cases hd : s.data with
  | nil => simp [pyStartsWith, hd] at h
  | cons c cs =>
    simp [pyStartsWith, hd] at h ⊢
    simp [h]

/-- Unfolding of `splitAux` when the accumulator is nonempty: the next
emitted token is the accumulator (reversed) followed by the characters
up to the next whitespace. -/
theorem splitAux_nonempty_acc (cs : List Char) (acc : List Char) (h : acc ≠ []) :
    splitAux cs acc
      = String.mk (acc.reverse ++ cs.takeWhile (fun c => !pyIsSpace c))
        :: splitAux (cs.dropWhile (fun c => !pyIsSpace c)) [] := by
  induction cs generalizing acc with
  | nil =>
    cases acc with
    | nil => exact absurd rfl h
    | cons a as => simp [splitAux]
  | cons c cs ih =>
    cases acc with
    | nil => exact absurd rfl h
    | cons a as =>
      by_cases hc : pyIsSpace c
      · simp [splitAux, hc, List.takeWhile, List.dropWhile]
      · simp only [splitAux, hc, if_neg, Bool.false_eq_true, ite_false]
        rw [ih (c :: a :: as) (by simp)]
        simp [List.takeWhile, List.dropWhile, hc]

/-- The first token produced by `split()` on a string that starts with
`#` starts with that same `#`: so dropping the first character of token
0 is exactly "token 0 minus its leading `#`". -/
theorem first_token_starts_with (s : String) (h : pyStartsWith s "#" = true) :
    (pyIdx (pySplit s) 0).data.take 1 = ['#'] := by
  have hd : s.data.take 1 = ['#'] := by
    simpa [pyStartsWith] using h
  obtain ⟨rest, hrest⟩ : ∃ rest, s.data = '#' :: rest := by
    cases hs : s.data with
    | nil => simp [hs] at hd
    | cons c cs =>
      simp [hs, List.take] at hd
      exact ⟨cs, by rw [hd]⟩
  have hns : pyIsSpace '#' = false := by decide
  unfold pySplit
  rw [hrest]
  show (pyIdx (splitAux ('#' :: rest) []) 0).data.take 1 = ['#']
  have : splitAux ('#' :: rest) [] = splitAux rest ['#'] := by
    simp [splitAux, hns]
  rw [this, splitAux_nonempty_acc rest ['#'] (by simp)]
  simp [pyIdx]

/-- Claim C1: with the identify-msg capability established, a
`#`-prefixed message of at least 3 tokens from a sender with voice or
operator status records the joined session text under the lowercased
room in the NOW slot when the directive is `now` (respectively the NEXT
slot for `next`), and the only reply is `<nick>: ack`. -/
theorem set_command_records_slot (V O : String → String → Bool) (db : DB) (e : PubMsgEvent)
    (hstart : pyStartsWith (pyDrop1 e.arg) "#" = true)
    (hvo : (V e.target (nickOf e.source) || O e.target (nickOf e.source)) = true)
    (hlen : 3 ≤ (pySplit (pyDrop1 e.arg)).length) :
    (pyLower (pyIdx (pySplit (pyDrop1 e.arg)) 1) = "now" →
      (on_pubmsg V O ⟨true, db⟩ e).1.data.get
          (pyLower (pyDrop1 (pyIdx (pySplit (pyDrop1 e.arg)) 0))) Slot.NOW
        = some (joinSpace ((pySplit (pyDrop1 e.arg)).drop 2)) ∧
      (on_pubmsg V O ⟨true, db⟩ e).2 = [(e.target, nickOf e.source ++ ": ack")]) ∧
    (pyLower (pyIdx (pySplit (pyDrop1 e.arg)) 1) = "next" →
      (on_pubmsg V O ⟨true, db⟩ e).1.data.get
          (pyLower (pyDrop1 (pyIdx (pySplit (pyDrop1 e.arg)) 0))) Slot.NEXT
        = some (joinSpace ((pySplit (pyDrop1 e.arg)).drop 2)) ∧
      (on_pubmsg V O ⟨true, db⟩ e).2 = [(e.target, nickOf e.source ++ ": ack")]) := by
  constructor
  · intro hadv
    simp [on_pubmsg, hvo, hstart, hadv, Nat.not_lt.mpr hlen, DB.add_now, DB.get_set_same]
  · intro hadv
    have hne : pyLower (pyIdx (pySplit (pyDrop1 e.arg)) 1) ≠ "now" := by
      rw [hadv]; decide
    simp [on_pubmsg, hvo, hstart, hadv, hne, Nat.not_lt.mpr hlen, DB.add_next, DB.get_set_same]

/-- Claim C1 witness: a voiced user sending `#plenary now Opening
Keynote` stores session `Opening Keynote` for room `plenary`, slot NOW,
and the reply is `alice: ack`. -/
theorem set_command_records_slot_witness :
    ((on_pubmsg (fun _ _ => true) (fun _ _ => false) ⟨true, ⟨[]⟩⟩
        ⟨"alice!a@h", "#ptg", "+#plenary now Opening Keynote"⟩).1.data.get "plenary" Slot.NOW
      = some "Opening Keynote") ∧
    ((on_pubmsg (fun _ _ => true) (fun _ _ => false) ⟨true, ⟨[]⟩⟩
        ⟨"alice!a@h", "#ptg", "+#plenary now Opening Keynote"⟩).2
      = [("#ptg", "alice: ack")]) := by
  exact (set_command_records_slot (fun _ _ => true) (fun _ _ => false) ⟨[]⟩
    ⟨"alice!a@h", "#ptg", "+#plenary now Opening Keynote"⟩
    (by decide) rfl (by decide)).1 (by decide)

/-- Claim C2: a `#`-prefixed message from a sender with neither voice
nor operator status mutates nothing and the only reply is
`<nick>: Need voice to issue commands`. -/
theorem unprivileged_set_denied (V O : String → String → Bool) (db : DB) (e : PubMsgEvent)
    (hstart : pyStartsWith (pyDrop1 e.arg) "#" = true)
    (hv : V e.target (nickOf e.source) = false)
    (ho : O e.target (nickOf e.source) = false) :
    (on_pubmsg V O ⟨true, db⟩ e).1.data = db ∧
    (on_pubmsg V O ⟨true, db⟩ e).2
      = [(e.target, nickOf e.source ++ ": Need voice to issue commands")] := by
  simp [on_pubmsg, hstart, hv, ho]

/-- Claim C2 witness: unvoiced, non-op `bob` sending `#plenary now X`
leaves the store untouched and is told to get voice. -/
theorem unprivileged_set_denied_witness :
    (on_pubmsg (fun _ _ => false) (fun _ _ => false) ⟨true, ⟨[]⟩⟩
        ⟨"bob!b@h", "#ptg", "+#plenary now X"⟩).1.data = (⟨[]⟩ : DB) ∧
    (on_pubmsg (fun _ _ => false) (fun _ _ => false) ⟨true, ⟨[]⟩⟩
        ⟨"bob!b@h", "#ptg", "+#plenary now X"⟩).2
      = [("#ptg", "bob: Need voice to issue commands")] :=
  unprivileged_set_denied (fun _ _ => false) (fun _ _ => false) ⟨[]⟩
    ⟨"bob!b@h", "#ptg", "+#plenary now X"⟩ (by decide) rfl rfl

/-- Claim C3: `!wipe` from an operator empties the store and the reply
is `<nick>: done`; any `!`-prefixed message from a non-operator mutates
nothing and the reply is `<nick>: Need op for admin commands`. -/
theorem wipe_and_admin_gate (V O : String → String → Bool) (db : DB) (e : PubMsgEvent) :
    (pyDrop1 e.arg = "!wipe" → O e.target (nickOf e.source) = true →
      (on_pubmsg V O ⟨true, db⟩ e).1.data.board = [] ∧
      (on_pubmsg V O ⟨true, db⟩ e).2 = [(e.target, nickOf e.source ++ ": done")]) ∧
    (pyStartsWith (pyDrop1 e.arg) "!" = true → O e.target (nickOf e.source) = false →
      (on_pubmsg V O ⟨true, db⟩ e).1.data = db ∧
      (on_pubmsg V O ⟨true, db⟩ e).2
        = [(e.target, nickOf e.source ++ ": Need op for admin commands")]) := by
  constructor
  · intro hmsg ho
    have h1 : pyStartsWith "!wipe" "#" = false := by decide
    have h2 : pyStartsWith "!wipe" "!" = true := by decide
    have h3 : pyLower (pyDrop1 (pyIdx (pySplit "!wipe") 0)) = "wipe" := by decide
    simp [on_pubmsg, hmsg, ho, h1, h2, h3, DB.wipe]
  · intro hstart ho
    have hnothash : pyStartsWith (pyDrop1 e.arg) "#" = false :=
      bang_not_hash _ hstart
    simp [on_pubmsg, hstart, hnothash, ho]

/-- Claim C3 witness: operator `op` sending `!wipe` empties a nonempty
store and gets `op: done`; non-op `bob` sending `!wipe` changes nothing
and gets `bob: Need op for admin commands`. -/
theorem wipe_and_admin_gate_witness :
    ((on_pubmsg (fun _ _ => false) (fun _ _ => true) ⟨true, ⟨[(("plenary", Slot.NOW), "X")]⟩⟩
        ⟨"op!o@h", "#ptg", "+!wipe"⟩).1.data.board = [] ∧
     (on_pubmsg (fun _ _ => false) (fun _ _ => true) ⟨true, ⟨[(("plenary", Slot.NOW), "X")]⟩⟩
        ⟨"op!o@h", "#ptg", "+!wipe"⟩).2 = [("#ptg", "op: done")]) ∧
    ((on_pubmsg (fun _ _ => false) (fun _ _ => false) ⟨true, ⟨[(("plenary", Slot.NOW), "X")]⟩⟩
        ⟨"bob!b@h", "#ptg", "+!wipe"⟩).1.data = (⟨[(("plenary", Slot.NOW), "X")]⟩ : DB) ∧
     (on_pubmsg (fun _ _ => false) (fun _ _ => false) ⟨true, ⟨[(("plenary", Slot.NOW), "X")]⟩⟩
        ⟨"bob!b@h", "#ptg", "+!wipe"⟩).2 = [("#ptg", "bob: Need op for admin commands")]) :=
  ⟨(wipe_and_admin_gate (fun _ _ => false) (fun _ _ => true) ⟨[(("plenary", Slot.NOW), "X")]⟩
      ⟨"op!o@h", "#ptg", "+!wipe"⟩).1 (by decide) rfl,
   (wipe_and_admin_gate (fun _ _ => false) (fun _ _ => false) ⟨[(("plenary", Slot.NOW), "X")]⟩
      ⟨"bob!b@h", "#ptg", "+!wipe"⟩).2 (by decide) rfl⟩

/-- Claim C4 counterexample: the claim says a `#`-prefixed message with
fewer than 3 tokens gets the malformed-command guidance regardless of
privilege; but unprivileged `bob` sending `#x` is answered with the
need-voice rejection, not the guidance — the code checks authorization
before counting arguments. -/
theorem malformed_gated_counterexample :
    (on_pubmsg (fun _ _ => false) (fun _ _ => false) ⟨true, ⟨[]⟩⟩
        ⟨"bob!b@h", "#ptg", "+#x"⟩).2
      = [("#ptg", "bob: Need voice to issue commands")] ∧
    (on_pubmsg (fun _ _ => false) (fun _ _ => false) ⟨true, ⟨[]⟩⟩
        ⟨"bob!b@h", "#ptg", "+#x"⟩).2
      ≠ [("#ptg", "bob: Incorrect number of arguments"), ("#ptg", usageLine)] := by
  constructor
  · rfl
  · decide

/-- Claim C4 amended: for `#`-prefixed messages with fewer than 3
tokens, the sender is authorization-checked first: with voice or op the
reply is the malformed-command guidance (error plus usage line, no
mutation); without, the reply is the need-voice rejection (no
mutation). -/
theorem auth_precedes_arity_check (V O : String → String → Bool) (db : DB) (e : PubMsgEvent)
    (hstart : pyStartsWith (pyDrop1 e.arg) "#" = true)
    (hlen : (pySplit (pyDrop1 e.arg)).length < 3) :
    ((V e.target (nickOf e.source) || O e.target (nickOf e.source)) = true →
      (on_pubmsg V O ⟨true, db⟩ e).1.data = db ∧
      (on_pubmsg V O ⟨true, db⟩ e).2
        = [(e.target, nickOf e.source ++ ": Incorrect number of arguments"),
           (e.target, usageLine)]) ∧
    ((V e.target (nickOf e.source) || O e.target (nickOf e.source)) = false →
      (on_pubmsg V O ⟨true, db⟩ e).1.data = db ∧
      (on_pubmsg V O ⟨true, db⟩ e).2
        = [(e.target, nickOf e.source ++ ": Need voice to issue commands")]) := by
  constructor
  · intro hvo
    simp [on_pubmsg, hstart, hvo, hlen]
  · intro hvo
    simp [on_pubmsg, hstart, hvo]

/-- Claim C4 amended witness: voiced `alice` sending `#x` gets the
guidance; unprivileged `carol` sending `#x` gets the need-voice
rejection. -/
theorem auth_precedes_arity_check_witness :
    ((on_pubmsg (fun _ _ => true) (fun _ _ => false) ⟨true, ⟨[]⟩⟩
        ⟨"alice!a@h", "#ptg", "+#x"⟩).1.data = (⟨[]⟩ : DB) ∧
     (on_pubmsg (fun _ _ => true) (fun _ _ => false) ⟨true, ⟨[]⟩⟩
        ⟨"alice!a@h", "#ptg", "+#x"⟩).2
       = [("#ptg", "alice: Incorrect number of arguments"), ("#ptg", usageLine)]) ∧
    ((on_pubmsg (fun _ _ => false) (fun _ _ => false) ⟨true, ⟨[]⟩⟩
        ⟨"carol!c@h", "#ptg", "+#x"⟩).1.data = (⟨[]⟩ : DB) ∧
     (on_pubmsg (fun _ _ => false) (fun _ _ => false) ⟨true, ⟨[]⟩⟩
        ⟨"carol!c@h", "#ptg", "+#x"⟩).2
       = [("#ptg", "carol: Need voice to issue commands")]) :=
  ⟨(auth_precedes_arity_check (fun _ _ => true) (fun _ _ => false) ⟨[]⟩
      ⟨"alice!a@h", "#ptg", "+#x"⟩ (by decide) (by decide)).1 rfl,
   (auth_precedes_arity_check (fun _ _ => false) (fun _ _ => false) ⟨[]⟩
      ⟨"carol!c@h", "#ptg", "+#x"⟩ (by decide) (by decide)).2 rfl⟩

/-- Claim C5 counterexample: operator `op` sending `!foo` gets only
`op: unknown command 'foo'`; the usage line is not sent, contradicting
the claim that every malformed reply is followed by it. -/
theorem unknown_command_no_usage_counterexample :
    (on_pubmsg (fun _ _ => false) (fun _ _ => true) ⟨true, ⟨[]⟩⟩
        ⟨"op!o@h", "#ptg", "+!foo"⟩).2
      = [("#ptg", "op: unknown command 'foo'")] ∧
    ¬ ("#ptg", usageLine) ∈ (on_pubmsg (fun _ _ => false) (fun _ _ => true) ⟨true, ⟨[]⟩⟩
        ⟨"op!o@h", "#ptg", "+!foo"⟩).2 := by
  constructor
  · rfl
  · decide

/-- Claim C5 amended: the usage line follows the error reply for the
incorrect-number-of-arguments and unknown-directive errors of set
commands; the unknown-admin-command reply is sent alone, with no usage
line after it. -/
theorem usage_follows_set_errors_only (V O : String → String → Bool) (db : DB) (e : PubMsgEvent) :
    (pyStartsWith (pyDrop1 e.arg) "#" = true →
     (V e.target (nickOf e.source) || O e.target (nickOf e.source)) = true →
     (pySplit (pyDrop1 e.arg)).length < 3 →
      (on_pubmsg V O ⟨true, db⟩ e).2
        = [(e.target, nickOf e.source ++ ": Incorrect number of arguments"),
           (e.target, usageLine)]) ∧
    (pyStartsWith (pyDrop1 e.arg) "#" = true →
     (V e.target (nickOf e.source) || O e.target (nickOf e.source)) = true →
     3 ≤ (pySplit (pyDrop1 e.arg)).length →
     pyLower (pyIdx (pySplit (pyDrop1 e.arg)) 1) ≠ "now" →
     pyLower (pyIdx (pySplit (pyDrop1 e.arg)) 1) ≠ "next" →
      (on_pubmsg V O ⟨true, db⟩ e).2
        = [(e.target, nickOf e.source ++ ": unknown directive '"
              ++ pyLower (pyIdx (pySplit (pyDrop1 e.arg)) 1) ++ "'"),
           (e.target, usageLine)]) ∧
    (pyStartsWith (pyDrop1 e.arg) "!" = true →
     O e.target (nickOf e.source) = true →
     pyLower (pyDrop1 (pyIdx (pySplit (pyDrop1 e.arg)) 0)) ≠ "wipe" →
      (on_pubmsg V O ⟨true, db⟩ e).2
        = [(e.target, nickOf e.source ++ ": unknown command '"
              ++ pyLower (pyDrop1 (pyIdx (pySplit (pyDrop1 e.arg)) 0)) ++ "'")]) := by
  refine ⟨fun hstart hvo hlen => ?_, fun hstart hvo hlen hnow hnext => ?_,
          fun hstart ho hcmd => ?_⟩
  · simp [on_pubmsg, hstart, hvo, hlen]
  · simp [on_pubmsg, hstart, hvo, hnow, hnext, Nat.not_lt.mpr hlen]
  · have hnothash : pyStartsWith (pyDrop1 e.arg) "#" = false :=
      bang_not_hash _ hstart
    simp [on_pubmsg, hstart, hnothash, ho, hcmd]

/-- Claim C5 amended witness: the three malformed shapes at concrete
inputs — short set command and unknown directive get error plus usage,
unknown admin command gets the error alone. -/
theorem usage_follows_set_errors_only_witness :
    ((on_pubmsg (fun _ _ => true) (fun _ _ => false) ⟨true, ⟨[]⟩⟩
        ⟨"alice!a@h", "#ptg", "+#x"⟩).2
      = [("#ptg", "alice: Incorrect number of arguments"), ("#ptg", usageLine)]) ∧
    ((on_pubmsg (fun _ _ => true) (fun _ _ => false) ⟨true, ⟨[]⟩⟩
        ⟨"alice!a@h", "#ptg", "+#plenary maybe X"⟩).2
      = [("#ptg", "alice: unknown directive 'maybe'"), ("#ptg", usageLine)]) ∧
    ((on_pubmsg (fun _ _ => false) (fun _ _ => true) ⟨true, ⟨[]⟩⟩
        ⟨"op!o@h", "#ptg", "+!foo"⟩).2
      = [("#ptg", "op: unknown command 'foo'")]) :=
  ⟨(usage_follows_set_errors_only (fun _ _ => true) (fun _ _ => false) ⟨[]⟩
      ⟨"alice!a@h", "#ptg", "+#x"⟩).1 (by decide) rfl (by decide),
   (usage_follows_set_errors_only (fun _ _ => true) (fun _ _ => false) ⟨[]⟩
      ⟨"alice!a@h", "#ptg", "+#plenary maybe X"⟩).2.1 (by decide) rfl (by decide)
      (by decide) (by decide),
   (usage_follows_set_errors_only (fun _ _ => false) (fun _ _ => true) ⟨[]⟩
      ⟨"op!o@h", "#ptg", "+!foo"⟩).2.2 (by decide) rfl (by decide)⟩

/-- Claim C6: for well-formed set commands, the first token starts with
`#` (so dropping its first character removes the leading `#`), and the
update is keyed by the lowercased room, dispatched on the lowercased
(case-insensitive) directive, with the session being the remaining
tokens rejoined by single spaces. -/
theorem parse_canonicalization (V O : String → String → Bool) (db : DB) (e : PubMsgEvent)
    (hstart : pyStartsWith (pyDrop1 e.arg) "#" = true)
    (hvo : (V e.target (nickOf e.source) || O e.target (nickOf e.source)) = true)
    (hlen : 3 ≤ (pySplit (pyDrop1 e.arg)).length) :
    (pyIdx (pySplit (pyDrop1 e.arg)) 0).data.take 1 = ['#'] ∧
    (pyLower (pyIdx (pySplit (pyDrop1 e.arg)) 1) = "now" →
      on_pubmsg V O ⟨true, db⟩ e
        = (⟨true, db.add_now (pyLower (pyDrop1 (pyIdx (pySplit (pyDrop1 e.arg)) 0)))
                    (joinSpace ((pySplit (pyDrop1 e.arg)).drop 2))⟩,
           [(e.target, nickOf e.source ++ ": ack")])) ∧
    (pyLower (pyIdx (pySplit (pyDrop1 e.arg)) 1) = "next" →
      on_pubmsg V O ⟨true, db⟩ e
        = (⟨true, db.add_next (pyLower (pyDrop1 (pyIdx (pySplit (pyDrop1 e.arg)) 0)))
                    (joinSpace ((pySplit (pyDrop1 e.arg)).drop 2))⟩,
           [(e.target, nickOf e.source ++ ": ack")])) := by
  refine ⟨first_token_starts_with _ hstart, fun hadv => ?_, fun hadv => ?_⟩
  · simp [on_pubmsg, hstart, hvo, hadv, Nat.not_lt.mpr hlen]
  · have hne : pyLower (pyIdx (pySplit (pyDrop1 e.arg)) 1) ≠ "now" := by
      rw [hadv]; decide
    simp [on_pubmsg, hstart, hvo, hadv, hne, Nat.not_lt.mpr hlen]

/-- Claim C6 witness: `#PLENARY NoW  Opening   Keynote` (mixed case,
multiple spaces) stores `Opening Keynote` — single internal spaces —
under room `plenary`, slot NOW. -/
theorem parse_canonicalization_witness :
    (pyIdx (pySplit (pyDrop1 "+#PLENARY NoW  Opening   Keynote")) 0).data.take 1 = ['#'] ∧
    on_pubmsg (fun _ _ => true) (fun _ _ => false) ⟨true, ⟨[]⟩⟩
        ⟨"alice!a@h", "#ptg", "+#PLENARY NoW  Opening   Keynote"⟩
      = (⟨true, ⟨[(("plenary", Slot.NOW), "Opening Keynote")]⟩⟩, [("#ptg", "alice: ack")]) :=
  have h := parse_canonicalization (fun _ _ => true) (fun _ _ => false) ⟨[]⟩
    ⟨"alice!a@h", "#ptg", "+#PLENARY NoW  Opening   Keynote"⟩
    (by decide) rfl (by decide)
  ⟨h.1, h.2.1 (by decide)⟩

/-- Claim C7: a voiced sender's `#`-prefixed message with fewer than 3
tokens mutates nothing; the replies are the incorrect-number-of-
arguments error and the usage line. -/
theorem voiced_short_command_malformed (V O : String → String → Bool) (db : DB) (e : PubMsgEvent)
    (hstart : pyStartsWith (pyDrop1 e.arg) "#" = true)
    (hv : V e.target (nickOf e.source) = true)
    (hlen : (pySplit (pyDrop1 e.arg)).length < 3) :
    (on_pubmsg V O ⟨true, db⟩ e).1.data = db ∧
    (on_pubmsg V O ⟨true, db⟩ e).2
      = [(e.target, nickOf e.source ++ ": Incorrect number of arguments"),
         (e.target, usageLine)] := by
  simp [on_pubmsg, hstart, hv, hlen]

/-- Claim C7 witness: voiced `alice` sending the two-token `#plenary
now` gets the error plus the usage line and the store is untouched. -/
theorem voiced_short_command_malformed_witness :
    (on_pubmsg (fun _ _ => true) (fun _ _ => false) ⟨true, ⟨[]⟩⟩
        ⟨"alice!a@h", "#ptg", "+#plenary now"⟩).1.data = (⟨[]⟩ : DB) ∧
    (on_pubmsg (fun _ _ => true) (fun _ _ => false) ⟨true, ⟨[]⟩⟩
        ⟨"alice!a@h", "#ptg", "+#plenary now"⟩).2
      = [("#ptg", "alice: Incorrect number of arguments"), ("#ptg", usageLine)] :=
  voiced_short_command_malformed (fun _ _ => true) (fun _ _ => false) ⟨[]⟩
    ⟨"alice!a@h", "#ptg", "+#plenary now"⟩ (by decide) rfl (by decide)

/-- Claim C8, code behaviour at the failing input: `on_pubmsg` computes
the identify-msg marker (`auth`) but never consults it, so a message
whose marker is `-` (unidentified sender) is still interpreted: voiced
`alice` sending marker `-` with `#plenary now X` mutates the store and
is acknowledged, where the spec requires the event be ignored. -/
theorem unidentified_marker_still_processed :
    on_pubmsg (fun _ _ => true) (fun _ _ => false) ⟨true, ⟨[]⟩⟩
        ⟨"alice!a@h", "#ptg", "-#plenary now X"⟩
      = (⟨true, ⟨[(("plenary", Slot.NOW), "X")]⟩⟩, [("#ptg", "alice: ack")]) := rfl

/-- Claim C9: when the identify-msg capability has not been established,
every inbound message leaves the state unchanged and sends nothing, for
all privilege oracles, stores and events. -/
theorem no_cap_ignores_all (V O : String → String → Bool) (db : DB) (e : PubMsgEvent) :
    on_pubmsg V O ⟨false, db⟩ e = (⟨false, db⟩, []) := by
  simp [on_pubmsg]

/-- Claim C10: any `!`-prefixed message from an operator whose first
token, minus the `!` and lowercased, is `wipe` empties the store and is
answered `<nick>: done`, regardless of any further tokens. -/
theorem wipe_ignores_extra_tokens (V O : String → String → Bool) (db : DB) (e : PubMsgEvent)
    (hstart : pyStartsWith (pyDrop1 e.arg) "!" = true)
    (hcmd : pyLower (pyDrop1 (pyIdx (pySplit (pyDrop1 e.arg)) 0)) = "wipe")
    (ho : O e.target (nickOf e.source) = true) :
    (on_pubmsg V O ⟨true, db⟩ e).1.data.board = [] ∧
    (on_pubmsg V O ⟨true, db⟩ e).2 = [(e.target, nickOf e.source ++ ": done")] := by
  have hnothash : pyStartsWith (pyDrop1 e.arg) "#" = false :=
    bang_not_hash _ hstart
  simp [on_pubmsg, hstart, hnothash, ho, hcmd, DB.wipe]

/-- Claim C10 witness: operator `op` sending `!WIPE everything` still
wipes the (nonempty) store and gets `op: done`. -/
theorem wipe_ignores_extra_tokens_witness :
    (on_pubmsg (fun _ _ => false) (fun _ _ => true) ⟨true, ⟨[(("plenary", Slot.NOW), "X")]⟩⟩
        ⟨"op!o@h", "#ptg", "+!WIPE everything"⟩).1.data.board = [] ∧
    (on_pubmsg (fun _ _ => false) (fun _ _ => true) ⟨true, ⟨[(("plenary", Slot.NOW), "X")]⟩⟩
        ⟨"op!o@h", "#ptg", "+!WIPE everything"⟩).2 = [("#ptg", "op: done")] :=
  wipe_ignores_extra_tokens (fun _ _ => false) (fun _ _ => true)
    ⟨[(("plenary", Slot.NOW), "X")]⟩ ⟨"op!o@h", "#ptg", "+!WIPE everything"⟩
    (by decide) (by decide) rfl

end Ptgbot
